import Mathlib

/-!
Verification development for the goevergreen-cloudflare-worker repository.

The JavaScript sources are shallowly embedded as total Lean functions:

* JS string primitives (`trim`, `toLowerCase`, `substring(0, n)`, `includes`,
  `startsWith`, `split('/')`) are modelled on `List Char` / `String`.
  JS strings are UTF-16 code-unit sequences; all inputs handled by the
  theorems below are ASCII, where `List Char` agrees with them.
* The regular expressions used by `src/utils/wordpress.js` are embedded as
  pattern values for a small backtracking matcher (`matchSeq`) that mimics
  the JS semantics needed by those patterns: case-insensitive literals
  (flag `i`), character classes, greedy and lazy repetition, one capture
  group per pattern, leftmost-first matching, and global replacement
  (flag `g`) that rescans after the replaced segment.
* The D1 relational store is modelled as lists of rows; `INSERT OR REPLACE`
  on the `newsletter_subscribers` table (UNIQUE email column) deletes the
  conflicting row and inserts a fresh row whose unnamed columns take their
  schema defaults (`confirmed`/`unsubscribed` default to FALSE).
* `fetch` is modelled as an oracle from the attempt number to an outcome;
  an aborted fetch (timeout) and network errors are one constructor.
* JSON/HTML serialization of responses is abstracted: a response body is a
  datatype recording the payload the code embeds in the serialized body.

The router embedded here is the `handlers/router.js` version of the
repository (the worker entry point imports `./handlers/router.js`); the
older router copy appended inside `src/index.js` is superseded by it.
-/

/-- JS `\s` / whitespace as used by `trim` (ASCII whitespace plus NBSP and
BOM; the further Unicode space characters never occur in the inputs of this
development). -/
def isJsSpace (c : Char) : Bool :=
  c == ' ' || c == '\t' || c == '\n' || c == '\r' || c == '\x0b' || c == '\x0c' ||
  c == '\xa0' || c.toNat == 0xfeff

/-- JS `String.prototype.trim` on character lists. -/
def jsTrimChars (s : List Char) : List Char :=
  ((s.dropWhile isJsSpace).reverse.dropWhile isJsSpace).reverse

/-- JS `String.prototype.trim`. -/
def jsTrim (s : String) : String :=
  String.mk (jsTrimChars s.data)

/-- JS `String.prototype.toLowerCase` (ASCII case folding; the inputs in
this development are ASCII). -/
def jsToLower (s : String) : String :=
  String.mk (s.data.map Char.toLower)

/-- JS `String.prototype.substring(0, n)`. -/
def jsTake (n : Nat) (s : String) : String :=
  String.mk (s.data.take n)

/-- Does `hay` start with `needle`? (first argument is the needle). -/
def startsWithChars : List Char → List Char → Bool
  | [], _ => true
  | _ :: _, [] => false
  | a :: as, b :: bs => a == b && startsWithChars as bs

/-- JS `String.prototype.startsWith`. -/
def jsStartsWith (s pre : String) : Bool :=
  startsWithChars pre.data s.data

/-- Substring test on character lists (first argument is the needle). -/
def jsIncludesL (needle : List Char) : List Char → Bool
  | [] => startsWithChars needle []
  | c :: t => startsWithChars needle (c :: t) || jsIncludesL needle t

/-- JS `String.prototype.includes`. -/
def jsIncludes (s sub : String) : Bool :=
  jsIncludesL sub.data s.data

/-- JS `String.prototype.split('/')` (single-character separator). -/
def splitChars (sep : Char) : List Char → List (List Char)
  | [] => [[]]
  | c :: t =>
    if c == sep then [] :: splitChars sep t
    else
      match splitChars sep t with
      | [] => [[c]]
      | h :: r => (c :: h) :: r

/-- JS `pathname.split('/')`. -/
def jsSplitSlash (s : String) : List String :=
  (splitChars '/' s.data).map String.mk

/-- JS `a || 'default'` on strings (empty string is falsy). -/
def jsOr (s d : String) : String :=
  if s = "" then d else s

/-! ### A small regex engine

Exactly the features used by the patterns of `src/utils/wordpress.js` and
`src/utils/database.js`: case-insensitive literals, character classes built
from `\s` and explicit characters, `.`-like `[\s\S]`, greedy/lazy `*` and
`+`, a single capture group per pattern (always wrapping a starred or
plussed atom in those sources), an end anchor for the anchored email test,
leftmost matching and global replacement. -/

/-- An atom of a pattern: a literal character (matched case-insensitively,
all source patterns carry the `i` flag), the any-character class `[\s\S]`,
or a character class `[...]`/`[^...]` whose members are `\s` (when `ws` is
set) together with the listed characters. -/
inductive RAtom where
  | lit (c : Char)
  | anyChar
  | cls (neg : Bool) (ws : Bool) (cs : List Char)
deriving DecidableEq

/-- An element of a pattern sequence. `gstar`/`gplus` are the capture-group
forms `(a*)`/`(a+)`; every source pattern has at most one capture group and
it always wraps a repeated atom. `eos` is the `$` anchor. -/
inductive RElem where
  | one (a : RAtom)
  | star (a : RAtom) (lzy : Bool)
  | plus (a : RAtom) (lzy : Bool)
  | gstar (a : RAtom) (lzy : Bool)
  | gplus (a : RAtom) (lzy : Bool)
  | eos
deriving DecidableEq

/-- Does an atom match a character (case-insensitive, per the `i` flag on
every source pattern)? -/
def atomMatches (a : RAtom) (c : Char) : Bool :=
  match a with
  | .lit l => l.toLower == c.toLower
  | .anyChar => true
  | .cls neg ws cs =>
    let inCls := (ws && isJsSpace c) || cs.any (fun d => d.toLower == c.toLower)
    if neg then !inCls else inCls

/-- Backtracking matcher: match the pattern sequence against the start of
the input, returning the number of consumed characters and the contents of
the capture group (empty when the pattern has no group), trying
alternatives in the preference order of JS regexes (greedy repetition
consumes first, lazy repetition exits first). Fuel bounds the recursion
depth; `fuelFor` below always supplies enough. -/
def matchSeq : Nat → List RElem → List Char → Option (Nat × List Char)
  | 0, _, _ => none
  | _ + 1, [], _ => some (0, [])
  | fuel + 1, RElem.one a :: es, s =>
    match s with
    | [] => none
    | c :: s' =>
      if atomMatches a c then
        match matchSeq fuel es s' with
        | some (n, g) => some (n + 1, g)
        | none => none
      else none
  | fuel + 1, RElem.star a lzy :: es, s =>
    if lzy then
      match matchSeq fuel es s with
      | some r => some r
      | none =>
        match s with
        | [] => none
        | c :: s' =>
          if atomMatches a c then
            match matchSeq fuel (RElem.star a lzy :: es) s' with
            | some (n, g) => some (n + 1, g)
            | none => none
          else none
    else
      match s with
      | [] => matchSeq fuel es []
      | c :: s' =>
        if atomMatches a c then
          match matchSeq fuel (RElem.star a lzy :: es) s' with
          | some (n, g) => some (n + 1, g)
          | none => matchSeq fuel es (c :: s')
        else matchSeq fuel es (c :: s')
  | fuel + 1, RElem.plus a lzy :: es, s =>
    matchSeq fuel (RElem.one a :: RElem.star a lzy :: es) s
  | fuel + 1, RElem.gstar a lzy :: es, s =>
    if lzy then
      match matchSeq fuel es s with
      | some (n, _) => some (n, [])
      | none =>
        match s with
        | [] => none
        | c :: s' =>
          if atomMatches a c then
            match matchSeq fuel (RElem.gstar a lzy :: es) s' with
            | some (n, g) => some (n + 1, c :: g)
            | none => none
          else none
    else
      match s with
      | [] => (matchSeq fuel es []).map (fun r => (r.1, []))
      | c :: s' =>
        if atomMatches a c then
          match matchSeq fuel (RElem.gstar a lzy :: es) s' with
          | some (n, g) => some (n + 1, c :: g)
          | none => (matchSeq fuel es (c :: s')).map (fun r => (r.1, []))
        else (matchSeq fuel es (c :: s')).map (fun r => (r.1, []))
  | fuel + 1, RElem.gplus a lzy :: es, s =>
    match s with
    | [] => none
    | c :: s' =>
      if atomMatches a c then
        match matchSeq fuel (RElem.gstar a lzy :: es) s' with
        | some (n, g) => some (n + 1, c :: g)
        | none => none
      else none
  | fuel + 1, RElem.eos :: es, s =>
    match s with
    | [] => matchSeq fuel es []
    | _ :: _ => none

/-- Sufficient matcher fuel for a pattern and input: the recursion depth of
`matchSeq` is bounded by the input length plus twice the pattern length. -/
def fuelFor (es : List RElem) (s : List Char) : Nat :=
  2 * es.length + 2 * s.length + 8

/-- Leftmost match of a pattern in the input, as
`(before, matched, capture, after)` — the data `RegExp.prototype.exec`
exposes via the match object. -/
def firstMatchAux (es : List RElem) : List Char → Option (List Char × List Char × List Char × List Char)
  | [] =>
    match matchSeq (fuelFor es []) es [] with
    | some (_, g) => some ([], [], g, [])
    | none => none
  | c :: s' =>
    match matchSeq (fuelFor es (c :: s')) es (c :: s') with
    | some (n, g) => some ([], (c :: s').take n, g, (c :: s').drop n)
    | none =>
      match firstMatchAux es s' with
      | some (pre, m, g, rest) => some (c :: pre, m, g, rest)
      | none => none

/-- JS `String.prototype.replace` with a `g`-flagged regex and a plain
replacement string: repeatedly replace the leftmost match, continuing
after the replacement. All source patterns contain a mandatory literal,
so a match is never empty; the empty guard only keeps the function total. -/
def replAllGo (es : List RElem) (repl : List Char) : Nat → List Char → List Char
  | 0, s => s
  | fuel + 1, s =>
    match firstMatchAux es s with
    | none => s
    | some (pre, m, _, rest) =>
      match m with
      | [] => s
      | _ :: _ => pre ++ repl ++ replAllGo es repl fuel rest

/-- Global regex replacement (see `replAllGo`). -/
def replAll (es : List RElem) (repl : List Char) (s : List Char) : List Char :=
  replAllGo es repl (s.length + 1) s

/-- All matches of a `g`-flagged regex (the `while ((match = re.exec(h)))`
loops of the source), as `(matched, capture)` pairs. -/
def allMatchesGo (es : List RElem) : Nat → List Char → List (List Char × List Char)
  | 0, _ => []
  | fuel + 1, s =>
    match firstMatchAux es s with
    | none => []
    | some (_, m, g, rest) =>
      match m with
      | [] => []
      | _ :: _ => (m, g) :: allMatchesGo es fuel rest

/-- All matches of a pattern in the input (see `allMatchesGo`). -/
def allMatchesIn (es : List RElem) (s : List Char) : List (List Char × List Char) :=
  allMatchesGo es (s.length + 1) s

/-- Literal pattern text (each character matched case-insensitively). -/
def lits (s : String) : List RElem :=
  s.data.map (fun c => RElem.one (RAtom.lit c))

/-- Greedy `a*`. -/
def star0 (a : RAtom) : RElem := RElem.star a false

/-- Lazy `a*?`. -/
def starLz (a : RAtom) : RElem := RElem.star a true

/-- Greedy `a+`. -/
def plus0 (a : RAtom) : RElem := RElem.plus a false

/-- Captured lazy `([\s\S]*?)`-style group. -/
def gstarL (a : RAtom) : RElem := RElem.gstar a true

/-- Captured greedy `([^<]+)`-style group. -/
def gplus0 (a : RAtom) : RElem := RElem.gplus a false

/-- `[\s\S]`. -/
def anyC : RAtom := RAtom.anyChar

/-- `[^>]`. -/
def noGt : RAtom := RAtom.cls true false ['>']

/-- `[^"]`. -/
def noQuot : RAtom := RAtom.cls true false ['"']

/-- `["']`. -/
def quoteCls : RAtom := RAtom.cls false false ['"', '\x27']

/-- `[^"']`. -/
def noQuotes : RAtom := RAtom.cls true false ['"', '\x27']

/-- `\s`. -/
def wsC : RAtom := RAtom.cls false true []

/-- `[^<]`. -/
def noLt : RAtom := RAtom.cls true false ['<']

/-! ### Environment bindings (`env`) -/

/-- Worker environment bindings used by the embedded code paths
(`wrangler` variables; the D1 binding `env.DB` is passed separately as the
store value). -/
structure Env where
  DOMAIN : String
  CONTACT_EMAIL : String
  WORDPRESS_BASE_URL : String
deriving DecidableEq

/-! ### `src/utils/wordpress.js` — patterns -/

/-- `/<link[^>]+rel=["']stylesheet["'][^>]*>/gi` (in `extractCSSLinks`). -/
def reLinkTag : List RElem :=
  lits "<link" ++ [plus0 noGt] ++ lits "rel=" ++ [RElem.one quoteCls] ++
  lits "stylesheet" ++ [RElem.one quoteCls] ++ [star0 noGt] ++ lits ">"

/-- `/https:\/\/[^\s"']+\.wordpress\.com/gi` (link rewriting in
`extractCSSLinks`). -/
def reWpComUrl : List RElem :=
  lits "https://" ++ [plus0 (RAtom.cls true true ['"', '\x27'])] ++ lits ".wordpress.com"

/-- `/<style[^>]*>([\s\S]*?)<\/style>/gi` (in `extractInlineStyles`). -/
def reStyleTag : List RElem :=
  lits "<style" ++ [star0 noGt] ++ lits ">" ++ [gstarL anyC] ++ lits "</style>"

/-- `/Design a site like this with WordPress\.com[\s\S]*?Get started/gi`. -/
def reDesign : List RElem :=
  lits "Design a site like this with WordPress.com" ++ [starLz anyC] ++ lits "Get started"

/-- `/Create a website or blog at WordPress\.com/gi`. -/
def reCreate : List RElem :=
  lits "Create a website or blog at WordPress.com"

/-- `/Powered by WordPress\.com/gi`. -/
def rePowered : List RElem :=
  lits "Powered by WordPress.com"

/-- `/<div[^>]*id="wpadminbar"[^>]*>[\s\S]*?<\/div>/gi`. -/
def reAdminBar : List RElem :=
  lits "<div" ++ [star0 noGt] ++ lits "id=\"wpadminbar\"" ++ [star0 noGt] ++
  lits ">" ++ [starLz anyC] ++ lits "</div>"

/-- `/<script[^>]*wp-admin[^>]*>[\s\S]*?<\/script>/gi`. -/
def reAdminScript : List RElem :=
  lits "<script" ++ [star0 noGt] ++ lits "wp-admin" ++ [star0 noGt] ++
  lits ">" ++ [starLz anyC] ++ lits "</script>"

/-- `/<form[^>]*class="[^"]*subscribe[^"]*"[^>]*>[\s\S]*?<\/form>/gi`. -/
def reSubForm : List RElem :=
  lits "<form" ++ [star0 noGt] ++ lits "class=\"" ++ [star0 noQuot] ++
  lits "subscribe" ++ [star0 noQuot] ++ lits "\"" ++ [star0 noGt] ++
  lits ">" ++ [starLz anyC] ++ lits "</form>"

/-- `/Subscribe[\s\n]*Subscribed/gi`. -/
def reSubSubbed : List RElem :=
  lits "Subscribe" ++ [star0 (RAtom.cls false true ['\n'])] ++ lits "Subscribed"

/-- `/Already have a WordPress\.com account\?[\s\S]*?Log in now\./gi`. -/
def reAlready : List RElem :=
  lits "Already have a WordPress.com account?" ++ [starLz anyC] ++ lits "Log in now."

/-- `/Report this content[\s\S]*?Collapse this bar/gi`. -/
def reReport : List RElem :=
  lits "Report this content" ++ [starLz anyC] ++ lits "Collapse this bar"

/-- `/"Skip to content"/gi`. -/
def reSkipText : List RElem :=
  lits "\"Skip to content\""

/-- `/https:\/\/goevergreen9\.wordpress\.com/gi`. -/
def reHttpsDomain : List RElem :=
  lits "https://goevergreen9.wordpress.com"

/-- `/goevergreen9\.wordpress\.com/gi`. -/
def reDomain : List RElem :=
  lits "goevergreen9.wordpress.com"

/-- `/<div[^>]*>\s*<\/div>/gi`. -/
def reEmptyDiv : List RElem :=
  lits "<div" ++ [star0 noGt] ++ lits ">" ++ [star0 wsC] ++ lits "</div>"

/-- `/<p[^>]*>\s*<\/p>/gi`. -/
def reEmptyP : List RElem :=
  lits "<p" ++ [star0 noGt] ++ lits ">" ++ [star0 wsC] ++ lits "</p>"

/-- `/<span[^>]*>\s*<\/span>/gi`. -/
def reEmptySpan : List RElem :=
  lits "<span" ++ [star0 noGt] ++ lits ">" ++ [star0 wsC] ++ lits "</span>"

/-- `/<main[^>]*>([\s\S]*?)<\/main>/i`. -/
def selMain : List RElem :=
  lits "<main" ++ [star0 noGt] ++ lits ">" ++ [gstarL anyC] ++ lits "</main>"

/-- `/<article[^>]*>([\s\S]*?)<\/article>/i`. -/
def selArticle : List RElem :=
  lits "<article" ++ [star0 noGt] ++ lits ">" ++ [gstarL anyC] ++ lits "</article>"

/-- `/<div[^>]*class="[^"]*entry-content[^"]*"[^>]*>([\s\S]*?)<\/div>/i`. -/
def selEntry : List RElem :=
  lits "<div" ++ [star0 noGt] ++ lits "class=\"" ++ [star0 noQuot] ++
  lits "entry-content" ++ [star0 noQuot] ++ lits "\"" ++ [star0 noGt] ++
  lits ">" ++ [gstarL anyC] ++ lits "</div>"

/-- `/<div[^>]*class="[^"]*post-content[^"]*"[^>]*>([\s\S]*?)<\/div>/i`. -/
def selPost : List RElem :=
  lits "<div" ++ [star0 noGt] ++ lits "class=\"" ++ [star0 noQuot] ++
  lits "post-content" ++ [star0 noQuot] ++ lits "\"" ++ [star0 noGt] ++
  lits ">" ++ [gstarL anyC] ++ lits "</div>"

/-- `/<div[^>]*class="[^"]*content[^"]*"[^>]*>([\s\S]*?)<\/div>/i`. -/
def selContentCls : List RElem :=
  lits "<div" ++ [star0 noGt] ++ lits "class=\"" ++ [star0 noQuot] ++
  lits "content" ++ [star0 noQuot] ++ lits "\"" ++ [star0 noGt] ++
  lits ">" ++ [gstarL anyC] ++ lits "</div>"

/-- `/<div[^>]*id="content"[^>]*>([\s\S]*?)<\/div>/i`. -/
def selContentId : List RElem :=
  lits "<div" ++ [star0 noGt] ++ lits "id=\"content\"" ++ [star0 noGt] ++
  lits ">" ++ [gstarL anyC] ++ lits "</div>"

/-- `/<section[^>]*class="[^"]*content[^"]*"[^>]*>([\s\S]*?)<\/section>/i`. -/
def selSection : List RElem :=
  lits "<section" ++ [star0 noGt] ++ lits "class=\"" ++ [star0 noQuot] ++
  lits "content" ++ [star0 noQuot] ++ lits "\"" ++ [star0 noGt] ++
  lits ">" ++ [gstarL anyC] ++ lits "</section>"

/-- `/<body[^>]*>([\s\S]*?)<\/body>/i`. -/
def selBody : List RElem :=
  lits "<body" ++ [star0 noGt] ++ lits ">" ++ [gstarL anyC] ++ lits "</body>"

/-- `/<header[\s\S]*?<\/header>/gi`. -/
def reHeaderBlk : List RElem :=
  lits "<header" ++ [starLz anyC] ++ lits "</header>"

/-- `/<footer[\s\S]*?<\/footer>/gi`. -/
def reFooterBlk : List RElem :=
  lits "<footer" ++ [starLz anyC] ++ lits "</footer>"

/-- `/<nav[^>]*class="[^"]*main[^"]*"[^>]*>[\s\S]*?<\/nav>/gi`. -/
def reNavMain : List RElem :=
  lits "<nav" ++ [star0 noGt] ++ lits "class=\"" ++ [star0 noQuot] ++
  lits "main" ++ [star0 noQuot] ++ lits "\"" ++ [star0 noGt] ++
  lits ">" ++ [starLz anyC] ++ lits "</nav>"

/-- `/<title[^>]*>([^<]+)<\/title>/i` (in `extractTitle`). -/
def reTitleTag : List RElem :=
  lits "<title" ++ [star0 noGt] ++ lits ">" ++ [gplus0 noLt] ++ lits "</title>"

/-- `/\s*‚Äì\s*WordPress\.com/gi` (title suffix stripping; the dash is the
mis-encoded en dash exactly as it appears in the source file). -/
def reDashWp : List RElem :=
  [star0 wsC] ++ lits "‚Äì" ++ [star0 wsC] ++ lits "WordPress.com"

/-- `/\s*\|\s*WordPress\.com/gi` (title suffix stripping). -/
def rePipeWp : List RElem :=
  [star0 wsC] ++ [RElem.one (RAtom.lit '|')] ++ [star0 wsC] ++ lits "WordPress.com"

/-- `/WordPress\.com/gi` (title and description stripping). -/
def reWpComLit : List RElem :=
  lits "WordPress.com"

/-- `/<meta[^>]+name=["']description["'][^>]+content=["']([^"']+)["']/i`
(in `extractDescription`). -/
def reMetaDesc : List RElem :=
  lits "<meta" ++ [plus0 noGt] ++ lits "name=" ++ [RElem.one quoteCls] ++
  lits "description" ++ [RElem.one quoteCls] ++ [plus0 noGt] ++
  lits "content=" ++ [RElem.one quoteCls] ++ [gplus0 noQuotes] ++ [RElem.one quoteCls]

/-! ### `src/utils/wordpress.js` — content model and extraction -/

/-- The content object flowing from the fetch/extraction pipeline into the
template renderer. `getFallbackContent` objects carry only
`content`/`title`/`description` (so `route` is `none`, `cssLinks` is empty,
`isAdmin` is false — undefined fields of the JS object);
`processWordPressHTML` fills every field. -/
structure ContentData where
  content : String
  title : String
  description : String
  route : Option String := none
  cssLinks : List String := []
  isAdmin : Bool := false
deriving DecidableEq

/-- The `extractCSSLinks` function: collect stylesheet `<link>` tags,
strip `*.wordpress.com` URL origins, and drop admin/login stylesheets. -/
def extractCSSLinks (html : List Char) : List (List Char) :=
  ((allMatchesIn reLinkTag html).map (fun m => replAll reWpComUrl [] m.1)).filter
    (fun l => !(jsIncludesL "wp-admin".data l) && !(jsIncludesL "login".data l))

/-- The `extractInlineStyles` function: concatenate non-admin `<style>`
block contents, newline-separated, and trim the result. -/
def extractInlineStyles (html : List Char) : List Char :=
  jsTrimChars
    (((allMatchesIn reStyleTag html).filter
        (fun m => !(jsIncludesL "wp-admin".data m.2) && !(jsIncludesL "#wpadminbar".data m.2))).foldl
      (fun acc m => acc ++ m.2 ++ ['\n']) [])

/-- The branding/admin-markup cleanup chain of `processWordPressHTML`: the
ordered sequence of `replace` calls on the raw HTML. -/
def wpClean (html : List Char) (env : Env) : List Char :=
  let domain := (jsOr env.DOMAIN "goevergreen.shop").data
  html
  |> replAll reDesign []
  |> replAll reCreate []
  |> replAll rePowered []
  |> replAll reAdminBar []
  |> replAll reAdminScript []
  |> replAll reSubForm []
  |> replAll reSubSubbed []
  |> replAll reAlready []
  |> replAll reReport []
  |> replAll reSkipText "\"Skip to main content\"".data
  |> replAll reHttpsDomain ("https://".data ++ domain)
  |> replAll reDomain domain
  |> replAll reEmptyDiv []
  |> replAll reEmptyP []
  |> replAll reEmptySpan []

/-- Header/footer/main-nav removal applied to a selected content candidate
inside `extractMainContent`. -/
def stripInner (content : List Char) : List Char :=
  replAll reNavMain [] (replAll reFooterBlk [] (replAll reHeaderBlk [] content))

/-- The ordered selector list of `extractMainContent`. -/
def contentSelectors : List (List RElem) :=
  [selMain, selArticle, selEntry, selPost, selContentCls, selContentId, selSection, selBody]

/-- The selector loop of `extractMainContent`: accept the first selector
whose capture is non-empty (`match[1]` truthy) and longer than 100
characters trimmed, and whose header/footer/nav-stripped form is longer
than 50 characters trimmed; otherwise keep trying. -/
def tryContentSelectors : List (List RElem) → List Char → Option (List Char)
  | [], _ => none
  | sel :: rest, html =>
    match firstMatchAux sel html with
    | some (_, _, g, _) =>
      if g ≠ [] ∧ 100 < (jsTrimChars g).length then
        let c := stripInner (jsTrimChars g)
        if 50 < (jsTrimChars c).length then some (jsTrimChars c)
        else tryContentSelectors rest html
      else tryContentSelectors rest html
    | none => tryContentSelectors rest html

/-- The `extractMainContent` function: the gated selector loop, then the
ungated `<body>` fallback, then the whole input. -/
def extractMainContent (html : List Char) : List Char :=
  match tryContentSelectors contentSelectors html with
  | some c => c
  | none =>
    match firstMatchAux selBody html with
    | some (_, _, g, _) => jsTrimChars g
    | none => html

/-- The `customTitles` table of `extractTitle`. -/
def customTitles : List (String × String) :=
  [("home", "GoEvergreen - Premium Wellness & Health Guidance for Women"),
   ("wellness-guides", "Comprehensive Wellness Guides - GoEvergreen"),
   ("benefits-of-exercises", "Exercise Benefits & Fitness Tips - GoEvergreen"),
   ("about", "About GoEvergreen - Your Wellness Journey Partner"),
   ("blog", "Health & Wellness Blog - GoEvergreen"),
   ("reviews", "Customer Reviews & Testimonials - GoEvergreen"),
   ("reveiws", "Customer Reviews & Testimonials - GoEvergreen"),
   ("contact-us", "Contact GoEvergreen - Get Expert Wellness Support"),
   ("donate", "Support GoEvergreen - Help Us Spread Wellness"),
   ("privacy-policy", "Privacy Policy - GoEvergreen"),
   ("privay-policy", "Privacy Policy - GoEvergreen")]

/-- The `extractTitle` function: document title with WordPress suffixes
stripped, overridden by the per-route custom table (`customTitles[route]
|| title || default`; every table value is non-empty, so the table wins
whenever the route is present). -/
def extractTitle (html : String) (route : String) : String :=
  let title :=
    match firstMatchAux reTitleTag html.data with
    | some (_, _, g, _) =>
      String.mk (jsTrimChars (replAll reWpComLit [] (replAll rePipeWp [] (replAll reDashWp [] g))))
    | none => ""
  match customTitles.find? (fun kv => kv.1 == route) with
  | some kv => kv.2
  | none => if title == "" then "GoEvergreen - Wellness & Health" else title

/-- The `customDescriptions` table of `extractDescription`. -/
def customDescriptions : List (String × String) :=
  [("home", "Discover premium wellness solutions, health guidance, and fitness tips designed specifically for women. Join thousands who trust GoEvergreen for their wellness journey."),
   ("wellness-guides", "Explore our comprehensive wellness guides covering nutrition, mental health, fitness, and holistic living. Expert advice for your complete well-being."),
   ("benefits-of-exercises", "Learn about the incredible benefits of exercise for women\x27s health, including weight management, mental clarity, and disease prevention."),
   ("about", "Learn about GoEvergreen\x27s mission to empower women with science-based wellness knowledge and personalized health guidance."),
   ("blog", "Stay updated with the latest wellness trends, health research, and expert tips from our team of certified wellness professionals."),
   ("reviews", "Read authentic reviews from women who transformed their health and wellness journey with GoEvergreen\x27s guidance and support."),
   ("reveiws", "Read authentic reviews from women who transformed their health and wellness journey with GoEvergreen\x27s guidance and support."),
   ("contact-us", "Get in touch with our wellness experts. We\x27re here to support your health journey with personalized guidance and care."),
   ("donate", "Support our mission to make premium wellness knowledge accessible to all women. Your contribution helps us reach more lives."),
   ("privacy-policy", "Learn how GoEvergreen protects your privacy and personal information. We\x27re committed to your data security and transparency."),
   ("privay-policy", "Learn how GoEvergreen protects your privacy and personal information. We\x27re committed to your data security and transparency.")]

/-- The `extractDescription` function: meta description with
`WordPress.com` stripped, overridden by the per-route custom table. -/
def extractDescription (html : String) (route : String) : String :=
  let description :=
    match firstMatchAux reMetaDesc html.data with
    | some (_, _, g, _) => String.mk (jsTrimChars (replAll reWpComLit [] g))
    | none => ""
  match customDescriptions.find? (fun kv => kv.1 == route) with
  | some kv => kv.2
  | none =>
    if description == "" then "GoEvergreen - Premium wellness and health guidance for women"
    else description

/-! ### `src/utils/wordpress.js` — fallback content table -/

/-- The `'home'` entry of the `fallbackContent` table of
`getFallbackContent`. -/
def fbHome : ContentData :=
  { content := "
        <div class=\"hero-section\">
          <h1>Welcome to GoEvergreen</h1>
          <p>Your premium destination for wellness, health, and fitness guidance designed specifically for women.</p>
          <div class=\"cta-buttons\">
            <a href=\"/wellness-guides\" class=\"btn btn-primary\">Explore Wellness Guides</a>
            <a href=\"/benefits-of-exercises\" class=\"btn btn-secondary\">Fitness Benefits</a>
          </div>
        </div>
        
        <section class=\"features\">
          <div class=\"feature\">
            <h3>üåø Holistic Wellness</h3>
            <p>Comprehensive guides covering nutrition, mental health, and lifestyle optimization tailored for modern women.</p>
          </div>
          <div class=\"feature\">
            <h3>üí™ Fitness Excellence</h3>
            <p>Expert exercise routines and fitness strategies designed for women\x27s unique physiological needs and goals.</p>
          </div>
          <div class=\"feature\">
            <h3>üß† Mental Clarity</h3>
            <p>Mindfulness practices and stress management techniques for achieving balanced, purposeful living.</p>
          </div>
        </section>
      ",
    title := "GoEvergreen - Premium Wellness & Health Guidance for Women",
    description := "Discover premium wellness solutions, health guidance, and fitness tips designed specifically for women." }

/-- The `'wellness-guides'` entry of the `fallbackContent` table. -/
def fbWellness : ContentData :=
  { content := "
        <h1>Comprehensive Wellness Guides</h1>
        <p>Explore our expertly crafted wellness guides designed to support your journey to optimal health and vitality.</p>
        
        <div class=\"guide-grid\">
          <div class=\"guide-card\">
            <h3>üçé Nutrition Mastery</h3>
            <p>Learn the fundamentals of healthy eating, meal planning, and nutritional balance for sustainable wellness.</p>
          </div>
          <div class=\"guide-card\">
            <h3>üßò Mental Wellness</h3>
            <p>Discover evidence-based strategies for stress management, mindfulness, and emotional well-being.</p>
          </div>
          <div class=\"guide-card\">
            <h3>üèÉ Fitness Foundation</h3>
            <p>Build strength, flexibility, and endurance with our comprehensive fitness programs for women.</p>
          </div>
          <div class=\"guide-card\">
            <h3>üåõ Sleep Optimization</h3>
            <p>Master the science of quality sleep for better recovery, mental clarity, and overall health.</p>
          </div>
        </div>
      ",
    title := "Comprehensive Wellness Guides - GoEvergreen",
    description := "Explore our comprehensive wellness guides covering nutrition, mental health, fitness, and holistic living." }

/-- The `'benefits-of-exercises'` entry of the `fallbackContent` table. -/
def fbBenefits : ContentData :=
  { content := "
        <h1>The Transformative Benefits of Exercise for Women</h1>
        <p>Discover how regular physical activity can revolutionize your health, energy, and quality of life.</p>
        
        <div class=\"benefits-grid\">
          <div class=\"benefit-card\">
            <h3>üí™ Physical Strength</h3>
            <p>Build lean muscle mass, improve bone density, and enhance overall physical capabilities.</p>
          </div>
          <div class=\"benefit-card\">
            <h3>üß† Mental Clarity</h3>
            <p>Boost cognitive function, reduce anxiety, and enhance mood through endorphin release.</p>
          </div>
          <div class=\"benefit-card\">
            <h3>‚ù§Ô∏è Heart Health</h3>
            <p>Strengthen cardiovascular system, lower blood pressure, and reduce disease risk.</p>
          </div>
          <div class=\"benefit-card\">
            <h3>‚öñÔ∏è Weight Management</h3>
            <p>Maintain healthy weight, boost metabolism, and improve body composition naturally.</p>
          </div>
        </div>
      ",
    title := "Exercise Benefits & Fitness Tips - GoEvergreen",
    description := "Learn about the incredible benefits of exercise for women\x27s health, including weight management, mental clarity, and disease prevention." }

/-- The `'about'` entry of the `fallbackContent` table. -/
def fbAbout : ContentData :=
  { content := "
        <h1>About GoEvergreen</h1>
        <p>Empowering women with science-based wellness knowledge and personalized health guidance.</p>
        
        <div class=\"about-content\">
          <h2>Our Mission</h2>
          <p>At GoEvergreen, we believe every woman deserves access to premium wellness resources and expert guidance. Our mission is to provide evidence-based health information that empowers you to make informed decisions about your well-being.</p>
          
          <h2>What We Offer</h2>
          <ul>
            <li>Comprehensive wellness guides tailored for women</li>
            <li>Expert fitness and nutrition advice</li>
            <li>Mental health and mindfulness resources</li>
            <li>Personalized wellness support</li>
          </ul>
          
          <h2>Why Choose GoEvergreen?</h2>
          <p>Our content is created by certified wellness professionals and backed by scientific research. We focus specifically on women\x27s unique health needs and challenges, providing practical, actionable guidance you can trust.</p>
        </div>
      ",
    title := "About GoEvergreen - Your Wellness Journey Partner",
    description := "Learn about GoEvergreen\x27s mission to empower women with science-based wellness knowledge and personalized health guidance." }

/-- The `'contact-us'` entry of the `fallbackContent` table. -/
def fbContact : ContentData :=
  { content := "
        <h1>Contact GoEvergreen</h1>
        <p>We\x27re here to support your wellness journey. Get in touch with our team of experts.</p>
        
        <div class=\"contact-info\">
          <div class=\"contact-method\">
            <h3>üìß Email Support</h3>
            <p>For general inquiries and support:</p>
            <p><a href=\"mailto:info@goevergreen.shop\">info@goevergreen.shop</a></p>
          </div>
          
          <div class=\"contact-method\">
            <h3>üí¨ Expert Consultation</h3>
            <p>Schedule a personalized wellness consultation with our certified professionals.</p>
          </div>
          
          <div class=\"contact-method\">
            <h3>üì± Follow Us</h3>
            <p>Stay connected for daily wellness tips and updates.</p>
          </div>
        </div>
        
        <div class=\"contact-form-placeholder\">
          <p><em>Contact form will be available soon. For immediate assistance, please email us directly.</em></p>
        </div>
      ",
    title := "Contact GoEvergreen - Get Expert Wellness Support",
    description := "Get in touch with our wellness experts. We\x27re here to support your health journey with personalized guidance and care." }

/-- The `fallbackContent` table of `getFallbackContent`. -/
def fallbackContentTable : List (String × ContentData) :=
  [("home", fbHome),
   ("wellness-guides", fbWellness),
   ("benefits-of-exercises", fbBenefits),
   ("about", fbAbout),
   ("contact-us", fbContact)]

/-- The `getFallbackContent` function: per-route static content, with the
`'home'` entry as the default for routes outside the table
(`fallbackContent[route] || fallbackContent['home']`). The `env` parameter
is unused in the source body and kept for signature fidelity. -/
def getFallbackContent (route : String) (env : Env) : ContentData :=
  match fallbackContentTable.find? (fun kv => kv.1 == route) with
  | some kv => kv.2
  | none => fbHome

/-- The preserved-CSS block prepended by `processWordPressHTML` when any
stylesheet link or inline style was extracted (the `cssSection` template
literal, including its exact whitespace). -/
def cssSection (cssLinks : List (List Char)) (inlineStyles : List Char) : List Char :=
  "\n        <!-- Preserved WordPress CSS -->\n        ".data ++
  List.intercalate "\n        ".data cssLinks ++
  "\n        ".data ++
  (if inlineStyles = [] then [] else "<style>".data ++ inlineStyles ++ "</style>".data) ++
  "\n        <!-- End WordPress CSS -->\n      ".data

/-- The `processWordPressHTML` function: extract CSS from the original
HTML, run the cleanup chain, extract the main content, prepend the
preserved CSS when present, and fall back to the static table when the
resulting content is falsy or shorter than 50 characters trimmed. The
`try`/`catch` of the source cannot fire here because every embedded
operation is total. -/
def processWordPressHTML (html : String) (route : String) (env : Env) : ContentData :=
  let cssLinks := extractCSSLinks html.data
  let inlineStyles := extractInlineStyles html.data
  let processed := wpClean html.data env
  let mainContent := extractMainContent processed
  let mainContent2 :=
    if 0 < cssLinks.length ∨ inlineStyles ≠ [] then cssSection cssLinks inlineStyles ++ mainContent
    else mainContent
  if mainContent2 = [] ∨ (jsTrimChars mainContent2).length < 50 then
    getFallbackContent route env
  else
    { content := String.mk (jsTrimChars mainContent2)
      route := some route
      title := extractTitle html route
      description := extractDescription html route
      cssLinks := cssLinks.map String.mk
      isAdmin := false }

/-! ### `src/utils/wordpress.js` — `getPageContent` retry loop

`fetch` and its abort timer are platform primitives; they are modelled by
an oracle mapping the attempt number to an outcome. `timeout` covers an
aborted request (the 15 s timer) and any network failure — everything the
`catch` block sees before a response exists. -/

/-- Outcome of one upstream fetch attempt. -/
inductive FetchOutcome where
  | timeout
  | response (status : Nat) (body : String)
deriving DecidableEq

/-- The `MAX_RETRIES` constant. -/
def MAX_RETRIES : Nat := 2

/-- The `FETCH_TIMEOUT` constant (milliseconds); it parameterizes the abort
timer inside the fetch oracle and is recorded for fidelity. -/
def FETCH_TIMEOUT : Nat := 15000

/-- Failure classification of one attempt, exactly the conditions that make
the loop body of `getPageContent` throw: an aborted/failed fetch, a
non-success status (`!response.ok`), or an empty/all-whitespace body. -/
def attemptFails (o : FetchOutcome) : Bool :=
  match o with
  | .timeout => true
  | .response st body =>
    decide (st < 200) || decide (299 < st) || decide ((jsTrim body).length = 0)

/-- Result of one iteration of the loop body of `getPageContent` for
non-admin routes: `none` when the attempt throws (triggering a retry),
otherwise the processed content. -/
def attemptResult (o : FetchOutcome) (route : String) (env : Env) : Option ContentData :=
  match o with
  | .timeout => none
  | .response st body =>
    if st < 200 ∨ 299 < st then none
    else if (jsTrim body).length = 0 then none
    else some (processWordPressHTML body route env)

/-- Instrumented result of `getPageContent`: the returned content plus the
loop's observable actions — how many fetch attempts ran and which backoff
sleeps (`setTimeout(…, 1000 * attempt)`) were awaited between them. -/
structure FetchResult where
  data : ContentData
  attempts : Nat
  waits : List Nat
deriving DecidableEq

/-- The retry loop of `getPageContent` (`for attempt = 1 .. MAX_RETRIES`):
return the first successful processed attempt; sleep `1000 * attempt`
milliseconds after a failed non-final attempt; after the final failure
return the static fallback. `remaining` counts the loop iterations left. -/
def getPageContentGo (oracle : Nat → FetchOutcome) (route : String) (env : Env) :
    Nat → Nat → List Nat → FetchResult
  | 0, attempt, waits =>
    { data := getFallbackContent route env, attempts := attempt - 1, waits := waits }
  | remaining + 1, attempt, waits =>
    match attemptResult (oracle attempt) route env with
    | some d => { data := d, attempts := attempt, waits := waits }
    | none =>
      getPageContentGo oracle route env remaining (attempt + 1)
        (if attempt < MAX_RETRIES then waits ++ [1000 * attempt] else waits)

/-- The `getPageContent` function for non-admin routes (the router always
calls it with `isAdmin` defaulted to false). It is total: it never throws
past its own boundary. -/
def getPageContent (oracle : Nat → FetchOutcome) (route : String) (env : Env) : FetchResult :=
  getPageContentGo oracle route env MAX_RETRIES 1 []

/-! ### `src/utils/database.js` — store model and operations

The D1 tables relevant to the claims, as lists of rows. `INSERT OR
REPLACE` on `newsletter_subscribers` (whose `email` column is UNIQUE)
deletes any row with the same email and inserts a fresh row; the columns
the statement does not name take their schema defaults
(`confirmed BOOLEAN DEFAULT FALSE`, `unsubscribed BOOLEAN DEFAULT FALSE`). -/

/-- A `newsletter_subscribers` row (the AUTOINCREMENT id and `created_at`
columns are never read by the embedded code and are omitted). -/
structure Subscriber where
  email : String
  name : String
  subscribedAt : String
  confirmed : Bool
  unsubscribed : Bool
deriving DecidableEq

/-- A `contact_submissions` row (id and `created_at` omitted as above;
`status` takes its schema default `'new'` on insert). -/
structure ContactRow where
  name : String
  email : String
  message : String
  submittedAt : String
  status : String
deriving DecidableEq

/-- The D1 database (`env.DB`) restricted to the tables the claims
mention. -/
structure Store where
  subscribers : List Subscriber
  contacts : List ContactRow
deriving DecidableEq

/-- `INSERT OR REPLACE INTO newsletter_subscribers (email, name,
subscribed_at) VALUES (?, ?, ?)`: delete the row with the conflicting
UNIQUE email, insert a fresh row with default flag columns. -/
def insertOrReplaceSubscriber (rows : List Subscriber) (email name subscribedAt : String) :
    List Subscriber :=
  rows.filter (fun r => r.email != email) ++
  [{ email := email, name := name, subscribedAt := subscribedAt,
     confirmed := false, unsubscribed := false }]

/-- The email regex `/^[^\s@]+@[^\s@]+\.[^\s@]+$/` of
`isValidEmail` in `src/utils/database.js`, anchored at both ends. -/
def reEmail : List RElem :=
  [plus0 (RAtom.cls true true ['@'])] ++ lits "@" ++
  [plus0 (RAtom.cls true true ['@'])] ++ lits "." ++
  [plus0 (RAtom.cls true true ['@'])] ++ [RElem.eos]

/-- The `isValidEmail` function of `src/utils/database.js`. -/
def isValidEmail (email : String) : Bool :=
  (matchSeq (fuelFor reEmail email.data) reEmail email.data).isSome && email.length ≤ 255

/-- The `subscribeToNewsletter` function of `src/utils/database.js` (the
data-access variant of the subscribe operation; the live router inlines
the same sanitization and statement). Returns the success flag and the
updated table. -/
def subscribeToNewsletter (rows : List Subscriber) (email : String) (name : String)
    (now : String) : Bool × List Subscriber :=
  if email = "" ∨ isValidEmail email = false then (false, rows)
  else
    let email2 := jsToLower (jsTrim email)
    let name2 := if name = "" then "" else jsTake 100 (jsTrim name)
    (true, insertOrReplaceSubscriber rows email2 name2 now)

/-! ### HTTP request/response model -/

/-- An inbound request as the router observes it. `email`/`name`/`message`
are the fields the handlers read from the parsed body (`request.json()`
for JSON bodies or `request.formData()` for form posts — both code paths
produce the same field values, `none` standing for an absent field /
`undefined`). `now` is the value of `new Date().toISOString()` while the
request is handled. -/
structure Request where
  pathname : String
  method : String
  email : Option String := none
  name : Option String := none
  message : Option String := none
  now : String := ""
deriving DecidableEq

/-- A response body, recording the payload the code serializes
(`JSON.stringify`, the HTML template, the sitemap XML): the serialization
itself is abstracted. -/
inductive RespBody where
  | page (data : ContentData) (pathname : String)
  | jsonSuccess (message : String)
  | jsonError (message : String)
  | sitemapXml (urls : List String)
  | redirect (location : String)
  | analyticsSummary
deriving DecidableEq

/-- An HTTP response (`new Response(...)`; status defaults to 200). -/
structure HttpResponse where
  status : Nat
  body : RespBody
deriving DecidableEq

/-- The `createErrorResponse` helper of `handlers/router.js`: a JSON error
object (the timestamp field it also serializes is abstracted away with the
serialization). -/
def createErrorResponse (message : String) (status : Nat) : HttpResponse :=
  { status := status, body := RespBody.jsonError message }

/-- The `createCustomResponse` function of `src/utils/response.js`: wrap
the content data in the full HTML template for the requested path and
return it with status 200. The rendered template is represented by the
`page` body carrying exactly the data and path the template embeds. -/
def createCustomResponse (contentData : ContentData) (pathname : String) (env : Env) :
    HttpResponse :=
  { status := 200, body := RespBody.page contentData pathname }

/-! ### `src/handlers/router.js` -/

/-- The `ROUTES` path → logical-route table (an object literal; every key
starts with `/`, so prototype properties can never be hit and an
association list is a faithful model). -/
def ROUTES : List (String × String) :=
  [("/", "home"),
   ("/wellness-guides", "wellness-guides"),
   ("/privacy-policy", "privay-policy"),
   ("/donate", "donate"),
   ("/contact-us", "contact-us"),
   ("/benefits-of-exercises", "benefits-of-exercises"),
   ("/about", "about"),
   ("/blog", "blog"),
   ("/reviews", "reveiws"),
   ("/newsletter/subscribe", "newsletter-subscribe"),
   ("/sitemap.xml", "sitemap")]

/-- The keys of `ROUTES` (`Object.keys(ROUTES)`). -/
def routeKeys : List String := ROUTES.map (fun kv => kv.1)

/-- The logical route values of `ROUTES`. -/
def routeValues : List String := ROUTES.map (fun kv => kv.2)

/-- `ROUTES[pathname] || 'home'`. -/
def routesLookup (pathname : String) : String :=
  match ROUTES.find? (fun kv => kv.1 == pathname) with
  | some kv => kv.2
  | none => "home"

/-- The sanitization `name ? name.trim().substring(0, 100) : ''` applied to
the (possibly absent) `name` body field after `name = data.name || ''`. -/
def sanitizeNameField (nameOpt : Option String) : String :=
  let name := nameOpt.getD ""
  if name = "" then "" else jsTake 100 (jsTrim name)

/-- The `handleNewsletterSubscription` handler: validate the email
(present, contains `@`, at most 255 characters), sanitize
(trim + lowercase the email, trim + cap the name), upsert the subscriber
row, and answer with JSON. An absent field and an empty string are both
falsy, hence the `getD ""`. -/
def handleNewsletterSubscription (req : Request) (db : Store) : HttpResponse × Store :=
  let email := req.email.getD ""
  if email = "" ∨ jsIncludes email "@" = false ∨ 255 < email.length then
    ({ status := 400, body := RespBody.jsonError "Valid email required" }, db)
  else
    let email2 := jsToLower (jsTrim email)
    let name2 := sanitizeNameField req.name
    ({ status := 200,
       body := RespBody.jsonSuccess "Successfully subscribed to our wellness newsletter!" },
     { db with subscribers := insertOrReplaceSubscriber db.subscribers email2 name2 req.now })

/-- The `handleNewsletterAPI` handler: POST only (else 405), then the
shared subscription handler. -/
def handleNewsletterAPI (req : Request) (db : Store) : HttpResponse × Store :=
  if req.method != "POST" then (createErrorResponse "Method not allowed" 405, db)
  else handleNewsletterSubscription req db

/-- The `handleContactAPI` handler: POST only; all three fields required;
email must contain `@` and be at most 255 characters; fields are trimmed
and capped (name 100, message 1000) before the append-only insert into
`contact_submissions`. -/
def handleContactAPI (req : Request) (db : Store) : HttpResponse × Store :=
  if req.method != "POST" then (createErrorResponse "Method not allowed" 405, db)
  else
    let name := req.name.getD ""
    let email := req.email.getD ""
    let message := req.message.getD ""
    if name = "" ∨ email = "" ∨ message = "" then
      ({ status := 400, body := RespBody.jsonError "All fields are required" }, db)
    else if jsIncludes email "@" = false ∨ 255 < email.length then
      ({ status := 400, body := RespBody.jsonError "Valid email required" }, db)
    else
      let sName := jsTake 100 (jsTrim name)
      let sEmail := jsToLower (jsTrim email)
      let sMessage := jsTake 1000 (jsTrim message)
      ({ status := 200,
         body := RespBody.jsonSuccess "Thank you for contacting us! We\x27ll get back to you soon." },
       { db with contacts := db.contacts ++
          [{ name := sName, email := sEmail, message := sMessage,
             submittedAt := req.now, status := "new" }] })

/-- The `handleAnalyticsAPI` handler: a read-only JSON summary of
`page_views` (the aggregate itself is irrelevant to every claim and is
abstracted into the `analyticsSummary` body). -/
def handleAnalyticsAPI (req : Request) (db : Store) : HttpResponse × Store :=
  ({ status := 200, body := RespBody.analyticsSummary }, db)

/-- The `handleStaticAssets` handler: placeholder redirects for the logo
and favicon, 404 otherwise. -/
def handleStaticAssets (pathname : String) (env : Env) : HttpResponse :=
  if pathname = "/assets/logo.jpg" then
    { status := 302,
      body := RespBody.redirect "https://via.placeholder.com/200x200/7a9b8e/ffffff?text=GoEvergreen" }
  else if pathname = "/assets/favicon.ico" then
    { status := 302,
      body := RespBody.redirect "https://via.placeholder.com/32x32/7a9b8e/ffffff?text=GE" }
  else createErrorResponse "Asset not found" 404

/-- The `handleAPI` dispatcher: `pathname.split('/')[2]` selects the API
resource. -/
def handleAPI (req : Request) (db : Store) : HttpResponse × Store :=
  let segments := jsSplitSlash req.pathname
  match segments.get? 2 with
  | some "newsletter" => handleNewsletterAPI req db
  | some "contact" => handleContactAPI req db
  | some "analytics" => handleAnalyticsAPI req db
  | _ => (createErrorResponse "API endpoint not found" 404, db)

/-- The `sitemap` pages list of `createSitemap`:
`Object.keys(ROUTES).filter(route => !route.includes('newsletter') &&
!route.includes('sitemap'))`. -/
def sitemapPages : List String :=
  routeKeys.filter (fun r => !(jsIncludes r "newsletter") && !(jsIncludes r "sitemap"))

/-- The `createSitemap` function: an XML body listing
`https://${env.DOMAIN}${page}` for every kept page (the per-URL
lastmod/changefreq/priority attributes are serialization details carried
by the XML text and abstracted with it). -/
def createSitemap (env : Env) : HttpResponse :=
  { status := 200,
    body := RespBody.sitemapXml (sitemapPages.map (fun page => "https://" ++ env.DOMAIN ++ page)) }

/-- The `handleRequest` router: classify the path (static assets, API,
newsletter form post, sitemap, page render) in source order. The
`ctx.waitUntil(trackPageView(...))` analytics write is decoupled from the
response and touches only tables no other handler reads; it is elided
here. The surrounding `try`/`catch` cannot fire because every embedded
operation is total. -/
def handleRequest (req : Request) (oracle : Nat → FetchOutcome) (env : Env) (db : Store) :
    HttpResponse × Store :=
  if jsStartsWith req.pathname "/assets/" then (handleStaticAssets req.pathname env, db)
  else if jsStartsWith req.pathname "/api/" then handleAPI req db
  else if req.pathname = "/newsletter/subscribe" ∧ req.method = "POST" then
    handleNewsletterSubscription req db
  else
    let route := routesLookup req.pathname
    if route = "sitemap" then (createSitemap env, db)
    else (createCustomResponse (getPageContent oracle route env).data req.pathname env, db)

/-- Default environment values (the worker entry point fills these when the
bindings are absent); used by concrete witnesses. -/
def defaultEnv : Env :=
  { DOMAIN := "goevergreen.shop",
    CONTACT_EMAIL := "info@goevergreen.shop",
    WORDPRESS_BASE_URL := "https://goevergreen9.wordpress.com" }

/-- A raw HTML input whose inline style block is preserved while its
extracted main content (`hi`) is far below the 50-character minimum. -/
def shortCssHtml : String := "<style>x</style><body>hi</body>"

/-- A 1001-character message, used to exercise the 1000-character cap. -/
def longMessage : String := String.mk (List.replicate 1001 'm')

/-- An existing confirmed-and-unsubscribed subscriber row keyed
`user@example.com`. -/
def oldSubscriberRow : Subscriber :=
  { email := "user@example.com", name := "Old", subscribedAt := "t0",
    confirmed := true, unsubscribed := true }

/-- A store holding only `oldSubscriberRow`. -/
def oneSubscriberStore : Store :=
  { subscribers := [oldSubscriberRow], contacts := [] }

/-- The empty store. -/
def emptyStore : Store := { subscribers := [], contacts := [] }

/-! ### Helper lemmas -/

/-- Deleting the rows keyed `e` really deletes them: filtering the
remainder for key `e` yields nothing. -/
lemma filter_ne_filter_eq (l : List Subscriber) (e : String) :
    (l.filter (fun r => r.email != e)).filter (fun r => r.email == e) = [] := by
  induction l with
  | nil => rfl
  | cons a t ih =>
    by_cases h : a.email = e
    · simp [List.filter_cons, h, ih]
    · simp [List.filter_cons, h, ih]

/-- Filtering away key `e` is idempotent. -/
lemma filter_ne_idem (l : List Subscriber) (e : String) :
    (l.filter (fun r => r.email != e)).filter (fun r => r.email != e) =
    l.filter (fun r => r.email != e) := by
  induction l with
  | nil => rfl
  | cons a t ih =>
    by_cases h : a.email = e
    · simp [List.filter_cons, h, ih]
    · simp [List.filter_cons, h, ih]

/-- After an upsert keyed `e`, the rows keyed `e` are exactly the fresh
row. -/
lemma upsert_rows_with_key (l : List Subscriber) (row : Subscriber) (e : String)
    (h : row.email = e) :
    ((l.filter (fun r => r.email != e)) ++ [row]).filter (fun r => r.email == e) = [row] := by
  simp [List.filter_append, filter_ne_filter_eq, h]

/-- After an upsert keyed `e`, the rows with other keys are unchanged. -/
lemma upsert_rows_other_keys (l : List Subscriber) (row : Subscriber) (e : String)
    (h : row.email = e) :
    ((l.filter (fun r => r.email != e)) ++ [row]).filter (fun r => r.email != e) =
    l.filter (fun r => r.email != e) := by
  simp [List.filter_append, filter_ne_idem, h]

/-- A pathname outside the `ROUTES` table looks up to the `'home'`
default. -/
lemma routesLookup_eq_home (P : String) (h : P ∉ routeKeys) : routesLookup P = "home" := by
  have hfind : ROUTES.find? (fun kv => kv.1 == P) = none := by
    apply List.find?_eq_none.mpr
    intro kv hkv hbeq
    exact h (by
      have : kv.1 = P := by simpa using hbeq
      exact this ▸ List.mem_map_of_mem (fun kv => kv.1) hkv)
  simp [routesLookup, hfind]

/-- A failing attempt makes the loop body of `getPageContent` throw. -/
lemma attemptResult_of_fails (o : FetchOutcome) (route : String) (env : Env)
    (h : attemptFails o = true) : attemptResult o route env = none := by
  cases o with
  | timeout => rfl
  | response st body =>
    simp only [attemptFails, Bool.or_eq_true, decide_eq_true_eq] at h
    show (if st < 200 ∨ 299 < st then none
          else if (jsTrim body).length = 0 then none
          else some (processWordPressHTML body route env)) = none
    rcases h with (h | h) | h
    · rw [if_pos (Or.inl h)]
    · rw [if_pos (Or.inr h)]
    · by_cases hok : st < 200 ∨ 299 < st
      · rw [if_pos hok]
      · rw [if_neg hok, if_pos h]

/-! ### Claim theorems -/

/-- C1: for every valid email E (containing `@`, at most 255 characters),
calling the newsletter subscribe operation twice with the same E leaves
exactly one subscriber row keyed by the case-folded, trimmed form of E
(and rows under other keys untouched). The subscribe operation is the
router's `handleNewsletterSubscription`, serving both the form post and
`/api/newsletter`. -/
theorem subscribe_twice_one_row (db : Store) (E : String) (name1 name2 : Option String)
    (t1 t2 : String)
    (hat : jsIncludes E "@" = true) (hlen : E.length ≤ 255) :
    ((handleNewsletterSubscription
        { pathname := "/newsletter/subscribe", method := "POST", email := some E,
          name := name2, now := t2 }
        (handleNewsletterSubscription
          { pathname := "/newsletter/subscribe", method := "POST", email := some E,
            name := name1, now := t1 } db).2).2.subscribers.filter
        (fun r => r.email == jsToLower (jsTrim E)) =
      [{ email := jsToLower (jsTrim E), name := sanitizeNameField name2, subscribedAt := t2,
         confirmed := false, unsubscribed := false }]) ∧
    ((handleNewsletterSubscription
        { pathname := "/newsletter/subscribe", method := "POST", email := some E,
          name := name2, now := t2 }
        (handleNewsletterSubscription
          { pathname := "/newsletter/subscribe", method := "POST", email := some E,
            name := name1, now := t1 } db).2).2.subscribers.filter
        (fun r => r.email != jsToLower (jsTrim E)) =
      db.subscribers.filter (fun r => r.email != jsToLower (jsTrim E))) := by
  have hEne : E ≠ "" := by
    intro heq
    rw [heq] at hat
    exact absurd hat (by decide)
  have hcond : ¬(E = "" ∨ jsIncludes E "@" = false ∨ 255 < E.length) := by
    rintro (hc | hc | hc)
    · exact hEne hc
    · rw [hat] at hc; cases hc
    · omega
  have hstep : ∀ (nm : Option String) (t : String) (d : Store),
      (handleNewsletterSubscription
        { pathname := "/newsletter/subscribe", method := "POST", email := some E,
          name := nm, now := t } d).2 =
      { d with subscribers :=
          (insertOrReplaceSubscriber d.subscribers (jsToLower (jsTrim E))
            (sanitizeNameField nm) t) } := by
    intro nm t d
    show ((if E = "" ∨ jsIncludes E "@" = false ∨ 255 < E.length then
        ({ status := 400, body := RespBody.jsonError "Valid email required" }, d)
      else
        ({ status := 200,
           body := RespBody.jsonSuccess "Successfully subscribed to our wellness newsletter!" },
         { d with subscribers :=
            (insertOrReplaceSubscriber d.subscribers (jsToLower (jsTrim E))
              (sanitizeNameField nm) t) })) :
        HttpResponse × Store).2 = _
    rw [if_neg hcond]
  rw [hstep, hstep]
  constructor
  · exact upsert_rows_with_key _ _ _ rfl
  · calc (insertOrReplaceSubscriber
        (insertOrReplaceSubscriber db.subscribers (jsToLower (jsTrim E))
          (sanitizeNameField name1) t1) (jsToLower (jsTrim E))
        (sanitizeNameField name2) t2).filter (fun r => r.email != jsToLower (jsTrim E)) =
      (insertOrReplaceSubscriber db.subscribers (jsToLower (jsTrim E))
        (sanitizeNameField name1) t1).filter (fun r => r.email != jsToLower (jsTrim E)) :=
        upsert_rows_other_keys _ _ _ rfl
    _ = db.subscribers.filter (fun r => r.email != jsToLower (jsTrim E)) :=
        upsert_rows_other_keys _ _ _ rfl

/-- C1 witness: subscribing twice with `"  User@Example.COM "` from the
empty store leaves exactly the single row keyed `user@example.com`. -/
theorem subscribe_twice_one_row_witness :
    (jsIncludes "  User@Example.COM " "@" = true ∧
     ("  User@Example.COM " : String).length ≤ 255) ∧
    (((handleNewsletterSubscription
        { pathname := "/newsletter/subscribe", method := "POST",
          email := some "  User@Example.COM ", name := some "Beth", now := "t2" }
        (handleNewsletterSubscription
          { pathname := "/newsletter/subscribe", method := "POST",
            email := some "  User@Example.COM ", name := some "Ann", now := "t1" }
          { subscribers := [], contacts := [] }).2).2.subscribers.filter
        (fun r => r.email == jsToLower (jsTrim "  User@Example.COM ")) =
      [{ email := jsToLower (jsTrim "  User@Example.COM "), name := sanitizeNameField (some "Beth"),
         subscribedAt := "t2", confirmed := false, unsubscribed := false }]) ∧
    ((handleNewsletterSubscription
        { pathname := "/newsletter/subscribe", method := "POST",
          email := some "  User@Example.COM ", name := some "Beth", now := "t2" }
        (handleNewsletterSubscription
          { pathname := "/newsletter/subscribe", method := "POST",
            email := some "  User@Example.COM ", name := some "Ann", now := "t1" }
          { subscribers := [], contacts := [] }).2).2.subscribers.filter
        (fun r => r.email != jsToLower (jsTrim "  User@Example.COM ")) =
      ({ subscribers := [], contacts := [] } : Store).subscribers.filter
        (fun r => r.email != jsToLower (jsTrim "  User@Example.COM ")))) :=
  ⟨⟨by decide, by decide⟩,
   subscribe_twice_one_row { subscribers := [], contacts := [] } "  User@Example.COM "
     (some "Ann") (some "Beth") "t1" "t2" (by decide) (by decide)⟩

/-- C2: every request path outside the fixed route table (and outside the
static-asset and API prefixes) is resolved to the `home` logical route and
rendered as a status-200 page under the requested path — never an HTTP
error. -/
theorem unknown_path_renders_home (req : Request) (oracle : Nat → FetchOutcome)
    (env : Env) (db : Store)
    (h1 : jsStartsWith req.pathname "/assets/" = false)
    (h2 : jsStartsWith req.pathname "/api/" = false)
    (h3 : req.pathname ∉ routeKeys) :
    handleRequest req oracle env db =
      (createCustomResponse (getPageContent oracle "home" env).data req.pathname env, db) ∧
    (handleRequest req oracle env db).1.status = 200 := by
  have hne : req.pathname ≠ "/newsletter/subscribe" := by
    intro heq
    exact h3 (by rw [heq]; decide)
  have hhome := routesLookup_eq_home req.pathname h3
  have hmain : handleRequest req oracle env db =
      (createCustomResponse (getPageContent oracle "home" env).data req.pathname env, db) := by
    unfold handleRequest
    rw [h1, h2]
    simp [hne, hhome]
  exact ⟨hmain, by rw [hmain]; rfl⟩

/-- C2 witness: the unknown path `/totally-unknown` renders the home
content with status 200. -/
theorem unknown_path_renders_home_witness :
    (jsStartsWith "/totally-unknown" "/assets/" = false ∧
     jsStartsWith "/totally-unknown" "/api/" = false ∧
     "/totally-unknown" ∉ routeKeys) ∧
    (handleRequest { pathname := "/totally-unknown", method := "GET" }
        (fun _ => FetchOutcome.timeout) defaultEnv { subscribers := [], contacts := [] } =
      (createCustomResponse
        (getPageContent (fun _ => FetchOutcome.timeout) "home" defaultEnv).data
        "/totally-unknown" defaultEnv, { subscribers := [], contacts := [] }) ∧
    (handleRequest { pathname := "/totally-unknown", method := "GET" }
        (fun _ => FetchOutcome.timeout) defaultEnv
        { subscribers := [], contacts := [] }).1.status = 200) :=
  ⟨⟨by decide, by decide, by decide⟩,
   unknown_path_renders_home { pathname := "/totally-unknown", method := "GET" }
     (fun _ => FetchOutcome.timeout) defaultEnv { subscribers := [], contacts := [] }
     (by decide) (by decide) (by decide)⟩

/-- C3: when both upstream fetch attempts fail (timeout, non-success
status, or empty/whitespace body), `getPageContent` makes exactly two
attempts with one 1000 ms backoff between them, returns the route's static
fallback content without throwing (it is a total function), and the page
response built from it has status 200. -/
theorem upstream_failure_serves_fallback (oracle : Nat → FetchOutcome)
    (route pathname : String) (env : Env)
    (hroute : route ∈ routeValues)
    (h1 : attemptFails (oracle 1) = true) (h2 : attemptFails (oracle 2) = true) :
    getPageContent oracle route env =
      { data := getFallbackContent route env, attempts := 2, waits := [1000] } ∧
    (createCustomResponse (getPageContent oracle route env).data pathname env).status = 200 := by
  have e1 := attemptResult_of_fails (oracle 1) route env h1
  have e2 := attemptResult_of_fails (oracle 2) route env h2
  have hmain : getPageContent oracle route env =
      { data := getFallbackContent route env, attempts := 2, waits := [1000] } := by
    show getPageContentGo oracle route env 2 1 [] = _
    rw [show (2 : Nat) = 1 + 1 from rfl, getPageContentGo, e1]
    norm_num [MAX_RETRIES]
    rw [show (1 : Nat) = 0 + 1 from rfl, getPageContentGo, e2]
    norm_num [MAX_RETRIES, getPageContentGo]
  exact ⟨hmain, by rw [hmain]; rfl⟩

/-- C3 witness: with every attempt timing out, the known route `about`
yields two attempts, one backoff, the fallback data, and a 200 page. -/
theorem upstream_failure_serves_fallback_witness :
    ("about" ∈ routeValues ∧
     attemptFails ((fun _ => FetchOutcome.timeout) 1) = true ∧
     attemptFails ((fun _ => FetchOutcome.timeout) 2) = true) ∧
    (getPageContent (fun _ => FetchOutcome.timeout) "about" defaultEnv =
      { data := getFallbackContent "about" defaultEnv, attempts := 2, waits := [1000] } ∧
    (createCustomResponse
      (getPageContent (fun _ => FetchOutcome.timeout) "about" defaultEnv).data
      "/about" defaultEnv).status = 200) :=
  ⟨⟨by decide, by decide, by decide⟩,
   upstream_failure_serves_fallback (fun _ => FetchOutcome.timeout) "about" "/about" defaultEnv
     (by decide) (by decide) (by decide)⟩

/-- C4 counterexample: for the input `<style>x</style><body>hi</body>`
the extracted main content after all stripping is `hi` (2 characters,
below the 50-character minimum), yet the extractor does not substitute the
route's fallback content: the preserved-CSS section is prepended before
the length gate, so the gate sees a long string and passes the page
through. -/
theorem extraction_gate_counterexample :
    (jsTrimChars (extractMainContent (wpClean shortCssHtml.data defaultEnv))).length < 50 ∧
    (processWordPressHTML shortCssHtml "about" defaultEnv).content ≠
      (getFallbackContent "about" defaultEnv).content ∧
    processWordPressHTML shortCssHtml "about" defaultEnv ≠
      getFallbackContent "about" defaultEnv := by
  decide

/-- C4 (amended): for every raw HTML input from which no stylesheet link
and no inline style block is preserved, and every route, if the extracted
main content is below the 50-character minimum after all stripping then
the extractor returns the route's fallback content — exactly the
fetch-failure result. (When CSS is preserved, the gate applies to the
CSS-prepended content instead; see the counterexample. The extractor is a
total function, so it never throws on malformed HTML.) -/
theorem insufficient_extraction_falls_back (html route : String) (env : Env)
    (hcss : extractCSSLinks html.data = [])
    (hstyle : extractInlineStyles html.data = [])
    (hshort : (jsTrimChars (extractMainContent (wpClean html.data env))).length < 50) :
    processWordPressHTML html route env = getFallbackContent route env := by
  unfold processWordPressHTML
  rw [hcss, hstyle]
  simp only [List.length_nil, Nat.lt_irrefl, ne_eq, not_true_eq_false, or_self, if_false,
    ite_false]
  rw [if_pos (Or.inr hshort)]

/-- C4 witness: `<body>hi</body>` preserves no CSS, extracts 2 characters,
and is substituted by the fallback content of the `blog` route (the home
default). -/
theorem insufficient_extraction_falls_back_witness :
    (extractCSSLinks "<body>hi</body>".data = [] ∧
     extractInlineStyles "<body>hi</body>".data = [] ∧
     (jsTrimChars (extractMainContent (wpClean "<body>hi</body>".data defaultEnv))).length < 50) ∧
    processWordPressHTML "<body>hi</body>" "blog" defaultEnv =
      getFallbackContent "blog" defaultEnv :=
  ⟨⟨by decide, by decide, by decide⟩,
   insufficient_extraction_falls_back "<body>hi</body>" "blog" defaultEnv
     (by decide) (by decide) (by decide)⟩

/-- C5: a POST to `/api/contact` with all required fields present (and a
valid email) and a trimmed message longer than 1000 characters succeeds
and stores a row whose message is exactly the first 1000 characters of the
trimmed message. -/
theorem contact_long_message_truncated (oracle : Nat → FetchOutcome) (env : Env) (db : Store)
    (nameS emailS messageS now : String)
    (hn : nameS ≠ "") (he : emailS ≠ "") (hm : messageS ≠ "")
    (hat : jsIncludes emailS "@" = true) (hlen : emailS.length ≤ 255)
    (hlong : 1000 < (jsTrim messageS).length) :
    (handleRequest
        { pathname := "/api/contact", method := "POST", email := some emailS,
          name := some nameS, message := some messageS, now := now } oracle env db).1.status = 200 ∧
    (handleRequest
        { pathname := "/api/contact", method := "POST", email := some emailS,
          name := some nameS, message := some messageS, now := now } oracle env db).2.contacts =
      db.contacts ++ [{ name := jsTake 100 (jsTrim nameS), email := jsToLower (jsTrim emailS),
                        message := jsTake 1000 (jsTrim messageS), submittedAt := now,
                        status := "new" }] ∧
    (jsTake 1000 (jsTrim messageS)).data = (jsTrim messageS).data.take 1000 ∧
    (jsTake 1000 (jsTrim messageS)).length = 1000 := by
  have hcond1 : ¬(nameS = "" ∨ emailS = "" ∨ messageS = "") := by
    rintro (hc | hc | hc)
    · exact hn hc
    · exact he hc
    · exact hm hc
  have hcond2 : ¬(jsIncludes emailS "@" = false ∨ 255 < emailS.length) := by
    rintro (hc | hc)
    · rw [hat] at hc; cases hc
    · omega
  have hred : handleRequest
      { pathname := "/api/contact", method := "POST", email := some emailS,
        name := some nameS, message := some messageS, now := now } oracle env db =
      handleContactAPI
        { pathname := "/api/contact", method := "POST", email := some emailS,
          name := some nameS, message := some messageS, now := now } db := rfl
  have hfin : handleContactAPI
      { pathname := "/api/contact", method := "POST", email := some emailS,
        name := some nameS, message := some messageS, now := now } db =
      ({ status := 200,
         body := RespBody.jsonSuccess "Thank you for contacting us! We\x27ll get back to you soon." },
       { db with contacts :=
          (db.contacts ++
            [{ name := jsTake 100 (jsTrim nameS), email := jsToLower (jsTrim emailS),
               message := jsTake 1000 (jsTrim messageS), submittedAt := now,
               status := "new" }]) }) := by
    show ((if nameS = "" ∨ emailS = "" ∨ messageS = "" then
        ({ status := 400, body := RespBody.jsonError "All fields are required" }, db)
      else if jsIncludes emailS "@" = false ∨ 255 < emailS.length then
        ({ status := 400, body := RespBody.jsonError "Valid email required" }, db)
      else
        ({ status := 200,
           body := RespBody.jsonSuccess "Thank you for contacting us! We\x27ll get back to you soon." },
         { db with contacts :=
            (db.contacts ++
              [{ name := jsTake 100 (jsTrim nameS), email := jsToLower (jsTrim emailS),
                 message := jsTake 1000 (jsTrim messageS), submittedAt := now,
                 status := "new" }]) })) : HttpResponse × Store) = _
    rw [if_neg hcond1, if_neg hcond2]
  refine ⟨by rw [hred, hfin], by rw [hred, hfin], rfl, ?_⟩
  show ((jsTrim messageS).data.take 1000).length = 1000
  rw [List.length_take]
  have : 1000 < (jsTrim messageS).data.length := hlong
  omega

set_option maxRecDepth 8192 in
/-- C5 witness: a 1001-character message is stored truncated to exactly
its first 1000 characters. -/
theorem contact_long_message_truncated_witness :
    (("Bob" : String) ≠ "" ∧ ("bob@example.com" : String) ≠ "" ∧ longMessage ≠ "" ∧
     jsIncludes "bob@example.com" "@" = true ∧ ("bob@example.com" : String).length ≤ 255 ∧
     1000 < (jsTrim longMessage).length) ∧
    ((handleRequest
        { pathname := "/api/contact", method := "POST", email := some "bob@example.com",
          name := some "Bob", message := some longMessage, now := "t" }
        (fun _ => FetchOutcome.timeout) defaultEnv emptyStore).1.status = 200 ∧
    (handleRequest
        { pathname := "/api/contact", method := "POST", email := some "bob@example.com",
          name := some "Bob", message := some longMessage, now := "t" }
        (fun _ => FetchOutcome.timeout) defaultEnv emptyStore).2.contacts =
      emptyStore.contacts ++
        [{ name := jsTake 100 (jsTrim "Bob"),
           email := jsToLower (jsTrim "bob@example.com"),
           message := jsTake 1000 (jsTrim longMessage),
           submittedAt := "t", status := "new" }] ∧
    (jsTake 1000 (jsTrim longMessage)).data = (jsTrim longMessage).data.take 1000 ∧
    (jsTake 1000 (jsTrim longMessage)).length = 1000) :=
  ⟨⟨by decide, by decide, by decide, by decide, by decide, by decide⟩,
   contact_long_message_truncated (fun _ => FetchOutcome.timeout) defaultEnv emptyStore
     "Bob" "bob@example.com" longMessage "t"
     (by decide) (by decide) (by decide) (by decide) (by decide) (by decide)⟩

/-- C6: a POST to `/api/newsletter` whose email fails the validation rule
(present, contains `@`, at most 255 characters) — for example
`not-an-email` — is answered 400 with a JSON error body and writes
nothing to the store. -/
theorem newsletter_invalid_email_rejected (oracle : Nat → FetchOutcome) (env : Env) (db : Store)
    (emailOpt nameOpt : Option String) (now : String)
    (hbad : emailOpt.getD "" = "" ∨ jsIncludes (emailOpt.getD "") "@" = false ∨
            255 < (emailOpt.getD "").length) :
    (handleRequest
        { pathname := "/api/newsletter", method := "POST", email := emailOpt,
          name := nameOpt, now := now } oracle env db).1 =
      { status := 400, body := RespBody.jsonError "Valid email required" } ∧
    (handleRequest
        { pathname := "/api/newsletter", method := "POST", email := emailOpt,
          name := nameOpt, now := now } oracle env db).2 = db := by
  have hred : handleRequest
      { pathname := "/api/newsletter", method := "POST", email := emailOpt,
        name := nameOpt, now := now } oracle env db =
      handleNewsletterSubscription
        { pathname := "/api/newsletter", method := "POST",
          email := emailOpt, name := nameOpt, now := now } db := rfl
  have hfin : handleNewsletterSubscription
      { pathname := "/api/newsletter", method := "POST",
        email := emailOpt, name := nameOpt, now := now } db =
      ({ status := 400, body := RespBody.jsonError "Valid email required" }, db) := by
    show ((if emailOpt.getD "" = "" ∨ jsIncludes (emailOpt.getD "") "@" = false ∨
          255 < (emailOpt.getD "").length then
        ({ status := 400, body := RespBody.jsonError "Valid email required" }, db)
      else
        ({ status := 200,
           body := RespBody.jsonSuccess "Successfully subscribed to our wellness newsletter!" },
         { db with subscribers :=
            (insertOrReplaceSubscriber db.subscribers (jsToLower (jsTrim (emailOpt.getD "")))
              (sanitizeNameField nameOpt) now) })) : HttpResponse × Store) = _
    rw [if_pos hbad]
  exact ⟨by rw [hred, hfin], by rw [hred, hfin]⟩

/-- C6 witness: the email `not-an-email` is rejected with 400 and the
store is unchanged. -/
theorem newsletter_invalid_email_rejected_witness :
    ((some "not-an-email" : Option String).getD "" = "" ∨
     jsIncludes ((some "not-an-email" : Option String).getD "") "@" = false ∨
     255 < ((some "not-an-email" : Option String).getD "").length) ∧
    ((handleRequest
        { pathname := "/api/newsletter", method := "POST", email := some "not-an-email",
          name := none, now := "t" } (fun _ => FetchOutcome.timeout) defaultEnv
        { subscribers := [], contacts := [] }).1 =
      { status := 400, body := RespBody.jsonError "Valid email required" } ∧
    (handleRequest
        { pathname := "/api/newsletter", method := "POST", email := some "not-an-email",
          name := none, now := "t" } (fun _ => FetchOutcome.timeout) defaultEnv
        { subscribers := [], contacts := [] }).2 = { subscribers := [], contacts := [] }) :=
  ⟨by decide,
   newsletter_invalid_email_rejected (fun _ => FetchOutcome.timeout) defaultEnv
     { subscribers := [], contacts := [] } (some "not-an-email") none "t" (by decide)⟩

/-- C7: a path of the fixed route table appears in the sitemap's URL list
exactly when it is neither the newsletter path nor the sitemap path. -/
theorem sitemap_excludes_only_newsletter_and_sitemap :
    ∀ p ∈ routeKeys,
      (p ∈ sitemapPages ↔ (p ≠ "/newsletter/subscribe" ∧ p ≠ "/sitemap.xml")) := by
  decide

/-- C7 witness: `/about` is in the table and in the sitemap list. -/
theorem sitemap_excludes_only_newsletter_and_sitemap_witness :
    ("/about" ∈ routeKeys) ∧
    ("/about" ∈ sitemapPages ↔
      (("/about" : String) ≠ "/newsletter/subscribe" ∧ ("/about" : String) ≠ "/sitemap.xml")) :=
  ⟨by decide, sitemap_excludes_only_newsletter_and_sitemap "/about" (by decide)⟩

/-- C9: a subscribe call whose case-folded, trimmed email matches an
existing subscriber row replaces the whole row: the store afterwards holds
exactly one row under that key, with `confirmed = false`,
`unsubscribed = false`, and the new call's name and timestamp — so a
confirmed subscriber who resubscribes becomes unconfirmed. -/
theorem resubscribe_replaces_row (db : Store) (E : String) (nameOpt : Option String) (t : String)
    (r : Subscriber)
    (hr : r ∈ db.subscribers) (hkey : r.email = jsToLower (jsTrim E)) (hconf : r.confirmed = true)
    (hat : jsIncludes E "@" = true) (hlen : E.length ≤ 255) :
    ((handleNewsletterSubscription
        { pathname := "/newsletter/subscribe", method := "POST", email := some E,
          name := nameOpt, now := t } db).2.subscribers.filter
        (fun s => s.email == r.email) =
      [{ email := jsToLower (jsTrim E), name := sanitizeNameField nameOpt, subscribedAt := t,
         confirmed := false, unsubscribed := false }]) ∧
    ((handleNewsletterSubscription
        { pathname := "/newsletter/subscribe", method := "POST", email := some E,
          name := nameOpt, now := t } db).2.subscribers.filter
        (fun s => s.email != r.email) =
      db.subscribers.filter (fun s => s.email != r.email)) := by
  have hEne : E ≠ "" := by
    intro heq
    rw [heq] at hat
    exact absurd hat (by decide)
  have hcond : ¬(E = "" ∨ jsIncludes E "@" = false ∨ 255 < E.length) := by
    rintro (hc | hc | hc)
    · exact hEne hc
    · rw [hat] at hc; cases hc
    · omega
  have hstep :
      (handleNewsletterSubscription
        { pathname := "/newsletter/subscribe", method := "POST", email := some E,
          name := nameOpt, now := t } db).2 =
      { db with subscribers :=
          (insertOrReplaceSubscriber db.subscribers (jsToLower (jsTrim E))
            (sanitizeNameField nameOpt) t) } := by
    show ((if E = "" ∨ jsIncludes E "@" = false ∨ 255 < E.length then
        ({ status := 400, body := RespBody.jsonError "Valid email required" }, db)
      else
        ({ status := 200,
           body := RespBody.jsonSuccess "Successfully subscribed to our wellness newsletter!" },
         { db with subscribers :=
            (insertOrReplaceSubscriber db.subscribers (jsToLower (jsTrim E))
              (sanitizeNameField nameOpt) t) })) :
        HttpResponse × Store).2 = _
    rw [if_neg hcond]
  rw [hstep, hkey]
  exact ⟨upsert_rows_with_key _ _ _ rfl, upsert_rows_other_keys _ _ _ rfl⟩

/-- C9 witness: a confirmed (and unsubscribed) row keyed
`user@example.com` is replaced by the fresh unconfirmed row on
resubscribe. -/
theorem resubscribe_replaces_row_witness :
    (oldSubscriberRow ∈ oneSubscriberStore.subscribers ∧
     oldSubscriberRow.email = jsToLower (jsTrim "  User@Example.COM ") ∧
     oldSubscriberRow.confirmed = true ∧
     jsIncludes "  User@Example.COM " "@" = true ∧
     ("  User@Example.COM " : String).length ≤ 255) ∧
    (((handleNewsletterSubscription
        { pathname := "/newsletter/subscribe", method := "POST",
          email := some "  User@Example.COM ", name := some "New", now := "t1" }
        oneSubscriberStore).2.subscribers.filter
        (fun s => s.email == oldSubscriberRow.email) =
      [{ email := jsToLower (jsTrim "  User@Example.COM "),
         name := sanitizeNameField (some "New"), subscribedAt := "t1",
         confirmed := false, unsubscribed := false }]) ∧
    ((handleNewsletterSubscription
        { pathname := "/newsletter/subscribe", method := "POST",
          email := some "  User@Example.COM ", name := some "New", now := "t1" }
        oneSubscriberStore).2.subscribers.filter
        (fun s => s.email != oldSubscriberRow.email) =
      oneSubscriberStore.subscribers.filter
        (fun s => s.email != oldSubscriberRow.email))) :=
  ⟨⟨by decide, by decide, by decide, by decide, by decide⟩,
   resubscribe_replaces_row oneSubscriberStore "  User@Example.COM " (some "New") "t1"
     oldSubscriberRow (by decide) (by decide) (by decide) (by decide) (by decide)⟩

/-- C10: a non-POST request to `/newsletter/subscribe` is not answered
405: it falls through to the page-rendering branch and is rendered as the
`newsletter-subscribe` logical route's page with status 200 (the path is
an entry of the fixed route table). -/
theorem newsletter_get_renders_page (req : Request) (oracle : Nat → FetchOutcome)
    (env : Env) (db : Store)
    (hp : req.pathname = "/newsletter/subscribe") (hm : req.method ≠ "POST") :
    handleRequest req oracle env db =
      (createCustomResponse (getPageContent oracle "newsletter-subscribe" env).data
        "/newsletter/subscribe" env, db) ∧
    (handleRequest req oracle env db).1.status = 200 ∧
    (handleRequest req oracle env db).1.status ≠ 405 := by
  have hmain : handleRequest req oracle env db =
      (createCustomResponse (getPageContent oracle "newsletter-subscribe" env).data
        "/newsletter/subscribe" env, db) := by
    unfold handleRequest
    rw [hp]
    rw [show jsStartsWith "/newsletter/subscribe" "/assets/" = false from by decide]
    rw [show jsStartsWith "/newsletter/subscribe" "/api/" = false from by decide]
    simp [hm, show routesLookup "/newsletter/subscribe" = "newsletter-subscribe" from by decide]
  refine ⟨hmain, by rw [hmain]; rfl, by rw [hmain]; simp [createCustomResponse]⟩

/-- C10 witness: a GET to `/newsletter/subscribe` renders the
`newsletter-subscribe` page with status 200, not 405. -/
theorem newsletter_get_renders_page_witness :
    (({ pathname := "/newsletter/subscribe", method := "GET" } : Request).pathname =
       "/newsletter/subscribe" ∧
     ({ pathname := "/newsletter/subscribe", method := "GET" } : Request).method ≠ "POST") ∧
    (handleRequest { pathname := "/newsletter/subscribe", method := "GET" }
        (fun _ => FetchOutcome.timeout) defaultEnv { subscribers := [], contacts := [] } =
      (createCustomResponse
        (getPageContent (fun _ => FetchOutcome.timeout) "newsletter-subscribe" defaultEnv).data
        "/newsletter/subscribe" defaultEnv, { subscribers := [], contacts := [] }) ∧
    (handleRequest { pathname := "/newsletter/subscribe", method := "GET" }
        (fun _ => FetchOutcome.timeout) defaultEnv
        { subscribers := [], contacts := [] }).1.status = 200 ∧
    (handleRequest { pathname := "/newsletter/subscribe", method := "GET" }
        (fun _ => FetchOutcome.timeout) defaultEnv
        { subscribers := [], contacts := [] }).1.status ≠ 405) :=
  ⟨⟨by decide, by decide⟩,
   newsletter_get_renders_page { pathname := "/newsletter/subscribe", method := "GET" }
     (fun _ => FetchOutcome.timeout) defaultEnv { subscribers := [], contacts := [] }
     (by decide) (by decide)⟩
